import Mathlib

/-!
# Verification of the dkproxy version-manifest state machine

A shallow embedding of the manifest state machine of `version-manager.py`
(with the shared pull-retry loop of `docker-pull-retry.py` and the tag
resolver shared with `migrate-to-versioned.py`), together with theorems
settling the specified properties.

Modelling conventions:
* Python dicts keyed by service name become functions `String → Option _`
  (resp. `String → List _` for `history`, whose Python access pattern
  `manifest.get('history', {}).get(service, [])` defaults to `[]`).
* Timestamps (`datetime.now().isoformat()`) are opaque strings passed in
  as parameters; likewise the deploying user and the inspected image digest.
* External side effects (the actual `docker pull`, `docker inspect`,
  writing `version-manifest.yaml` / `versions.env`) are modelled by
  boolean parameters/oracles and result flags; the manifest document
  itself is modelled in full.
* A Python function that can raise an uncaught exception is modelled with
  an `Option`/`Except` result, `none`/`.error` being the raise.
-/

/-! ## Data model (§ version-manifest.yaml) -/

/-- One element of `history[service]` (dict with keys tag/deployed_at/status). -/
structure HistoryEntry where
  tag : String
  deployedAt : String
  status : String
deriving DecidableEq, Repr

/-- The `services[service]` record written by `update_service_version`. -/
structure ServiceRecord where
  currentTag : String
  deployedAt : String
  deployedBy : String
  imageDigest : String
  notes : Option String
deriving DecidableEq, Repr

/-- The `custom_overrides[service]` record written by `set_version`. -/
structure Override where
  tag : String
  reason : String
  appliedAt : String
deriving DecidableEq, Repr

/-- The `ecr` block of the manifest. -/
structure EcrConfig where
  registry : String
  repositoryAlias : String
  usePrivate : Bool
  privateRegistry : String
  privateRegion : String
deriving DecidableEq, Repr

/-- The persisted manifest document (`version-manifest.yaml`). -/
structure Manifest where
  schemaVersion : String
  deploymentId : String
  customerId : String
  proxyLocation : String
  ecr : EcrConfig
  services : String → Option ServiceRecord
  history : String → List HistoryEntry
  customOverrides : String → Option Override

/-! ## Constants (top of `version-manager.py`) -/

def SERVICES : List String := ["outpost", "cmd_exec", "vault"]

def ECR_SERVICES : List String := ["outpost", "cmd_exec"]

def HISTORY_LIMIT : Nat := 5

/-- Model of `VersionManager.create_default_manifest`; `today` stands for
`datetime.now().strftime("%Y%m%d")`. -/
def create_default_manifest (today : String) : Manifest where
  schemaVersion := "1.0"
  deploymentId := "dkproxy-" ++ today
  customerId := ""
  proxyLocation := ""
  ecr := { registry := "public.ecr.aws", repositoryAlias := "n5k3t9x2",
           usePrivate := false, privateRegistry := "", privateRegion := "us-east-1" }
  services := fun _ => none
  history := fun _ => []
  customOverrides := fun _ => none

/-! ## Manifest loading (`VersionManager.load_manifest`)

The on-disk file is abstracted by what `os.path.exists` + `yaml.safe_load`
would see: absent, present but raising `yaml.YAMLError` when parsed
(malformed YAML), present and parsing to a falsy document (empty file:
`safe_load` returns `None`), or present and parsing to a manifest. -/

inductive ManifestFile where
  | absent
  | invalidYaml
  | emptyDoc
  | doc (m : Manifest)

/-- Model of `VersionManager.load_manifest`. There is no `try/except` around
`yaml.safe_load`, so a malformed file raises (modelled `.error ()`); the
`or self.create_default_manifest()` only covers a falsy (empty) parse.
The second component is the on-disk file after loading: `load_manifest`
never writes, so it is returned unchanged. -/
def load_manifest (f : ManifestFile) (today : String) :
    Except Unit Manifest × ManifestFile :=
  match f with
  | .absent => (.ok (create_default_manifest today), f)
  | .invalidYaml => (.error (), f)
  | .emptyDoc => (.ok (create_default_manifest today), f)
  | .doc m => (.ok m, f)

/-! ## Tag lookups -/

/-- Model of `VersionManager.get_registry`. -/
def get_registry (m : Manifest) : String :=
  if m.ecr.usePrivate && m.ecr.privateRegistry != "" then m.ecr.privateRegistry
  else m.ecr.registry ++ "/" ++ m.ecr.repositoryAlias

/-- Model of `VersionManager.get_image_name`; the `else: raise ValueError` branch for an
unknown service is modelled as `none`. -/
def get_image_name (m : Manifest) (service tag : String) : Option String :=
  if service ∈ ECR_SERVICES then
    some (get_registry m ++ "/" ++ service ++ ":" ++ tag)
  else if service = "vault" then
    some ("hashicorp/vault:" ++ tag)
  else
    none

/-- Model of `VersionManager.get_current_tag`. Python checks the override with
`if override.get('tag'):`, i.e. truthiness — an override whose `tag` is the
empty string does NOT take precedence. A missing override behaves like an
empty tag (`{}.get('tag')` is `None`, also falsy). -/
def get_current_tag (m : Manifest) (service : String) : String :=
  let overrideTag : String :=
    match m.customOverrides service with
    | some o => o.tag
    | none => ""
  if overrideTag != "" then overrideTag
  else
    match m.services service with
    | some r => r.currentTag
    | none => "latest"

/-- Model of `VersionManager.get_previous_tag`: first entry with status `previous`,
else the second history entry when the history has more than one entry. -/
def get_previous_tag (m : Manifest) (service : String) : Option String :=
  match (m.history service).find? (fun e => e.status == "previous") with
  | some e => some e.tag
  | none =>
    if 1 < (m.history service).length then
      ((m.history service)[1]?).map HistoryEntry.tag
    else
      none

/-! ## Recording a deployment (`VersionManager.update_service_version`) -/

/-- The status demotion performed on each pre-existing history entry of the
service before the new `current` entry is inserted. -/
def demoteEntry (isRollback : Bool) (e : HistoryEntry) : HistoryEntry :=
  if e.status = "current" then
    { e with status := if isRollback then "rolled-back" else "previous" }
  else if e.status = "previous" then
    { e with status := "archived" }
  else
    e

/-- The `notes` field added only for vault. -/
def serviceNotes (service : String) : Option String :=
  if service = "vault" then
    some "HashiCorp vault - defaults to :latest, manual pinning supported"
  else
    none

/-- Model of `VersionManager.update_service_version`. `now` is
`datetime.now().isoformat()`, `deployer` is `os.environ.get('USER','system')`,
`digest` is the output of the `docker inspect` call (empty on failure).
The function calls `get_image_name` (which raises for an unknown service,
modelled by `none`) before any mutation; on a known service it
1. overwrites `services[service]`,
2. demotes every existing `current` history entry (to `rolled-back` on a
   rollback, else `previous`) and every `previous` entry to `archived`,
3. inserts the new `current` entry at index 0 and truncates to
   `HISTORY_LIMIT` entries,
4. deletes `custom_overrides[service]` unless recording a rollback. -/
def update_service_version (m : Manifest) (service tag : String)
    (isRollback : Bool) (now deployer digest : String) : Option Manifest :=
  match get_image_name m service tag with
  | none => none
  | some _ =>
    some { m with
      services := fun s =>
        if s = service then
          some { currentTag := tag, deployedAt := now, deployedBy := deployer,
                 imageDigest := digest, notes := serviceNotes service }
        else m.services s
      history := fun s =>
        if s = service then
          (⟨tag, now, "current"⟩ ::
            (m.history service).map (demoteEntry isRollback)).take HISTORY_LIMIT
        else m.history s
      customOverrides := fun s =>
        if s = service ∧ ¬ isRollback then none else m.customOverrides s }

/-! ## The user-facing recording operations -/

/-- Result of an operation: the in-memory manifest afterwards, whether
`save_manifest` ran (the document reached disk), and whether the operation
reported success. -/
structure OpResult where
  manifest : Manifest
  saved : Bool
  ok : Bool

/-- Model of `VersionManager.pull`: unknown service or pull failure leave the manifest
untouched and unsaved and report the error; on pull success the new version is
recorded, saved and `versions.env` regenerated. `pullOk` is the outcome of
`docker_pull_with_retry` on the requested image. -/
def pull (m : Manifest) (service tag : String) (pullOk : Bool)
    (now deployer digest : String) : OpResult :=
  if service ∈ SERVICES then
    if pullOk then
      match update_service_version m service tag false now deployer digest with
      | some m' => ⟨m', true, true⟩
      | none => ⟨m, false, false⟩
    else ⟨m, false, false⟩
  else ⟨m, false, false⟩

/-- Model of `VersionManager.set_version`: like `pull` but additionally writes
`custom_overrides[service]` (after `update_service_version` deleted it), so
the net effect of a successful `set` is a fresh override. -/
def set_version (m : Manifest) (service tag : String) (pullOk : Bool)
    (now deployer digest : String) : OpResult :=
  if service ∈ SERVICES then
    if pullOk then
      match update_service_version m service tag false now deployer digest with
      | some m1 =>
        ⟨{ m1 with customOverrides := fun s =>
             if s = service then
               some { tag := tag, reason := "Custom version set via CLI", appliedAt := now }
             else m1.customOverrides s }, true, true⟩
      | none => ⟨m, false, false⟩
    else ⟨m, false, false⟩
  else ⟨m, false, false⟩

/-- Model of `VersionManager.rollback`, restricted to one service of the plan.
The target is the explicit `--tag` when given (`if tag:` — Python truthiness,
so an empty explicit tag falls through), else `get_previous_tag`. The plan
check is `if target and target != current`: a service with no target, with an
empty-string target (falsy), or whose target equals the current tag, is
skipped (left unchanged). Otherwise the target image name is formed
(`get_image_name`, which raises for an unknown service) and pulled; a failed
pull skips the service (`continue`), a successful pull records the target
with `is_rollback=True`. -/
def rollback_service (m : Manifest) (service : String) (tagOpt : Option String)
    (pullOk : Bool) (now deployer digest : String) : Option Manifest :=
  let current := get_current_tag m service
  let target? := match tagOpt with
    | some t => if t != "" then some t else get_previous_tag m service
    | none => get_previous_tag m service
  match target? with
  | none => some m
  | some target =>
    if target != "" && target != current then
      match get_image_name m service target with
      | none => none
      | some _ =>
        if pullOk then
          update_service_version m service target true now deployer digest
        else
          some m
    else
      some m

/-! ## Pull with retry (`docker_pull_with_retry`, both copies) -/

/-- Predicate `startsWithL s p`: the char list `s` starts with `p`. -/
def startsWithL : List Char → List Char → Bool
  | _, [] => true
  | [], _ :: _ => false
  | c :: cs, p :: ps => c == p && startsWithL cs ps

/-- Python's substring test `pat in s`, over the char lists. -/
def containsSubList (pat : List Char) : List Char → Bool
  | [] => pat.isEmpty
  | c :: cs => startsWithL (c :: cs) pat || containsSubList pat cs

/-- Python `pat in s` on strings. -/
def containsSub (s pat : String) : Bool :=
  containsSubList pat.data s.data

/-- Python `s.lower()` (the markers matched are ASCII). -/
def pyLower (s : String) : String :=
  String.mk (s.data.map Char.toLower)

/-- The expired-token test applied to a failed pull's output:
`"authorization token has expired" in output.lower() or
 "reauthenticate" in output.lower()`. -/
def expiredTokenMarker (output : String) : Bool :=
  containsSub (pyLower output) "authorization token has expired" ||
  containsSub (pyLower output) "reauthenticate"

/-- Result of `docker_pull_with_retry`: outcome, the output returned, the
number of `docker pull` invocations and of credential clears
(`clear_stale_ecr_credentials`, i.e. `docker logout public.ecr.aws`). -/
structure RetryResult where
  ok : Bool
  output : String
  pulls : Nat
  clears : Nat
deriving DecidableEq, Repr

/-- The `for attempt in range(max_retries)` loop. `attempts n` is the outcome
of the (n+1)-st `docker pull` (success flag, combined output); `isEcrImage`
is `'public.ecr.aws' in image`. A failed attempt retries (after one
credential clear) exactly when the output carries the expired-token marker,
a later attempt remains (`attempt < max_retries - 1`) and the image is on
public ECR; any other failure returns that attempt's output at once. -/
def retryFrom (attempts : Nat → Bool × String) (isEcrImage : Bool) :
    Nat → Nat → Nat → RetryResult
  | 0, pulls, clears => ⟨false, "", pulls, clears⟩
  | remaining + 1, pulls, clears =>
    match attempts pulls with
    | (true, out) => ⟨true, out, pulls + 1, clears⟩
    | (false, out) =>
      if expiredTokenMarker out && decide (1 ≤ remaining) && isEcrImage then
        retryFrom attempts isEcrImage remaining (pulls + 1) (clears + 1)
      else
        ⟨false, out, pulls + 1, clears⟩

/-- Model of `docker_pull_with_retry(image, max_retries)` (default `max_retries=2`). -/
def docker_pull_with_retry (attempts : Nat → Bool × String) (image : String)
    (maxRetries : Nat) : RetryResult :=
  retryFrom attempts (containsSub image "public.ecr.aws") maxRetries 0 0

/-! ## Tag selection (`resolve_tag_from_ecr` / `resolve_latest_tag_from_ecr`)

Both resolvers share the same selection step on a record's `imageTags`:
filter out `latest` and digest-like tags, then
`semantic_tags.sort(key=lambda x: [int(p) if p.isdigit() else p
                                   for p in x.replace('-', '.').split('.')],
                    reverse=True)`
wrapped in `try: ... except (ValueError, AttributeError): pass`,
and return `semantic_tags[0]`. -/

/-- One comparison key segment: `int(p) if p.isdigit() else p`. -/
inductive Seg where
  | num (n : Nat)
  | str (s : List Char)
deriving DecidableEq, Repr

/-- Python `x.replace('-', '.').split('.')` over the char list. -/
def splitSegs : List Char → List (List Char)
  | [] => [[]]
  | c :: cs =>
    if c = '.' ∨ c = '-' then [] :: splitSegs cs
    else
      match splitSegs cs with
      | [] => [[c]]
      | seg :: segs => (c :: seg) :: segs

/-- Decimal value of a digit list (guarded by `isdigit`, so no `ValueError`). -/
def natOfDigits (l : List Char) : Nat :=
  l.foldl (fun n c => n * 10 + (c.toNat - '0'.toNat)) 0

/-- Python `p.isdigit()` for ASCII segments: nonempty, all digits. -/
def pyIsDigit (p : List Char) : Bool :=
  !p.isEmpty && p.all Char.isDigit

/-- The sort key `[int(p) if p.isdigit() else p for p in ...]`. -/
def tagKey (x : String) : List Seg :=
  (splitSegs x.data).map (fun p =>
    if pyIsDigit p then Seg.num (natOfDigits p) else Seg.str p)

/-- Code-point comparison of strings (Python `str < str`). -/
def cmpChars : List Char → List Char → Ordering
  | [], [] => .eq
  | [], _ :: _ => .lt
  | _ :: _, [] => .gt
  | a :: as, b :: bs =>
    match compare a.toNat b.toNat with
    | .eq => cmpChars as bs
    | o => o

/-- Comparison of two key segments. Comparing an `int` with a `str` raises
`TypeError` in Python 3 (they compare unequal, then `<` raises): `none`. -/
def cmpSeg : Seg → Seg → Option Ordering
  | .num a, .num b => some (compare a b)
  | .str a, .str b => some (cmpChars a b)
  | _, _ => none

/-- Python list comparison of two keys: first differing position decides;
a mixed `int`/`str` pair at that position raises (`none`); a strict prefix
is smaller. -/
def cmpKey : List Seg → List Seg → Option Ordering
  | [], [] => some .eq
  | [], _ :: _ => some .lt
  | _ :: _, [] => some .gt
  | a :: as, b :: bs => if a = b then cmpKey as bs else cmpSeg a b

/-- Stable descending insertion into an already-sorted list, failing when a
needed comparison raises. -/
def insertDesc (x : String) : List String → Option (List String)
  | [] => some [x]
  | y :: ys =>
    match cmpKey (tagKey x) (tagKey y) with
    | none => none
    | some .lt => (insertDesc x ys).map (y :: ·)
    | some _ => some (x :: y :: ys)

/-- Python `l.sort(key=tagKey, reverse=True)`: stable descending sort; `none` when a
comparison between a numeric and a non-numeric segment raises `TypeError`. -/
def sortTagsDesc : List String → Option (List String)
  | [] => some []
  | x :: xs => (sortTagsDesc xs).bind (insertDesc x)

/-- Python `[t for t in tags if t != 'latest' and not t.startswith('sha')]`. -/
def semanticTags (tags : List String) : List String :=
  tags.filter (fun t => t != "latest" && !startsWithL t.data "sha".data)

/-- The full selection step on one image record's tag list. `.ok none`: no
semantic tag (the caller falls through). `.error ()`: the sort raised an
exception not caught by `except (ValueError, AttributeError)` — in this typed
model the only such exception, `TypeError` from a mixed segment comparison —
which propagates out of the resolver (neither resolver catches it). -/
def selectHighestTag (tags : List String) : Except Unit (Option String) :=
  let sem := semanticTags tags
  if sem.isEmpty then .ok none
  else
    match sortTagsDesc sem with
    | some sorted => .ok sorted.head?
    | none => .error ()

/-! ## Sequences of recording operations (for the history-bound property) -/

/-- The per-call inputs of one recording operation. -/
structure RecOp where
  tag : String
  isRollback : Bool
  now : String
  deployer : String
  digest : String
deriving Repr

/-- A sequence of successful recordings for one service, aborting (`none`)
if any call raises. -/
def applyOps (m : Manifest) (service : String) : List RecOp → Option Manifest
  | [] => some m
  | op :: rest =>
    match update_service_version m service op.tag op.isRollback op.now op.deployer op.digest with
    | none => none
    | some m1 => applyOps m1 service rest

/-! ## Concrete instances used by witnesses and counterexamples -/

/-- Concrete manifest with overrides on `outpost` and `vault` for the C5
witness. -/
def mW5 : Manifest := { create_default_manifest "20260101" with
  customOverrides := fun s =>
    if s = "outpost" then some ⟨"1.0-hotfix", "hotfix", "t0"⟩
    else if s = "vault" then some ⟨"1.15", "pin", "t0"⟩
    else none }

/-- Six concrete recording operations (including one rollback) for the C2
witness. -/
def opsW2 : List RecOp :=
  [⟨"1.1", false, "t1", "u", "d"⟩, ⟨"1.2", false, "t2", "u", "d"⟩,
   ⟨"1.3", false, "t3", "u", "d"⟩, ⟨"1.4", true, "t4", "u", "d"⟩,
   ⟨"1.5", false, "t5", "u", "d"⟩, ⟨"1.6", false, "t6", "u", "d"⟩]

/-- Concrete manifest for the C3 witness: `outpost` currently on `1.3` with a
`previous` entry `1.2` (the P5 scenario of the specification). -/
def mW3 : Manifest := { create_default_manifest "20260101" with
  services := fun s =>
    if s = "outpost" then some ⟨"1.3", "t1", "u", "d1", none⟩ else none
  history := fun s =>
    if s = "outpost" then
      [⟨"1.3", "t1", "current"⟩, ⟨"1.2", "t0", "previous"⟩]
    else [] }

/-- Counterexample manifest for C3: the `previous` history entry of `outpost`
carries the empty-string tag. -/
def mW3e : Manifest := { create_default_manifest "20260101" with
  services := fun s =>
    if s = "outpost" then some ⟨"x", "t1", "u", "d1", none⟩ else none
  history := fun s =>
    if s = "outpost" then
      [⟨"x", "t1", "current"⟩, ⟨"", "t0", "previous"⟩]
    else [] }

/-- The tag recorded in `services[service]` (`current_tag`, defaulting to
`latest` when the service is untracked) — the fallback the claim refers to. -/
def recordedTag (m : Manifest) (service : String) : String :=
  match m.services service with
  | some r => r.currentTag
  | none => "latest"

/-- Counterexample manifest for C4: an override for `outpost` is present but
its `tag` is the empty string. -/
def mW4 : Manifest := { create_default_manifest "20260101" with
  services := fun s =>
    if s = "outpost" then some ⟨"1.2", "t1", "u", "d", none⟩ else none
  customOverrides := fun s =>
    if s = "outpost" then some ⟨"", "emptied hotfix", "t0"⟩ else none }

/-- Manifest for the C4 witness: override with a non-empty tag. -/
def mW4b : Manifest := { create_default_manifest "20260101" with
  services := fun s =>
    if s = "outpost" then some ⟨"1.2", "t1", "u", "d", none⟩ else none
  customOverrides := fun s =>
    if s = "outpost" then some ⟨"9.9-hotfix", "hotfix", "t0"⟩ else none }

/-- Pull oracle for the C8 witness: first attempt fails with an expired-token
message, second succeeds. -/
def attemptsW8 : Nat → Bool × String := fun n =>
  if n == 0 then (false, "Error: authorization token has expired") else (true, "pull complete")

/-! ## Helper lemmas -/

theorem demoteEntry_tag (rb : Bool) (e : HistoryEntry) :
    (demoteEntry rb e).tag = e.tag := by
  unfold demoteEntry
  by_cases h1 : e.status = "current" <;> by_cases h2 : e.status = "previous" <;>
    simp [h1, h2]

theorem demoteEntry_status_ne (rb : Bool) (e : HistoryEntry) :
    ((demoteEntry rb e).status == "current") = false := by
  unfold demoteEntry
  by_cases h1 : e.status = "current"
  · rw [if_pos h1]
    cases rb <;> rfl
  · rw [if_neg h1]
    by_cases h2 : e.status = "previous"
    · rw [if_pos h2]; rfl
    · rw [if_neg h2]
      rw [beq_eq_false_iff_ne]
      exact h1

theorem get_image_name_isSome (m : Manifest) (service tag : String)
    (h : service ∈ SERVICES) : (get_image_name m service tag).isSome := by
  simp only [SERVICES, List.mem_cons, List.not_mem_nil, or_false] at h
  rcases h with rfl | rfl | rfl
  · simp [get_image_name, show ("outpost" : String) ∈ ECR_SERVICES from by decide]
  · simp [get_image_name, show ("cmd_exec" : String) ∈ ECR_SERVICES from by decide]
  · have hne : ¬ ("vault" : String) ∈ ECR_SERVICES := by decide
    simp [get_image_name, hne]

theorem update_eq_some {m : Manifest} {service tag : String} {rb : Bool}
    {now deployer digest : String} {img : String}
    (hg : get_image_name m service tag = some img) :
    update_service_version m service tag rb now deployer digest =
      some { m with
        services := fun s =>
          if s = service then
            some { currentTag := tag, deployedAt := now, deployedBy := deployer,
                   imageDigest := digest, notes := serviceNotes service }
          else m.services s
        history := fun s =>
          if s = service then
            (⟨tag, now, "current"⟩ ::
              (m.history service).map (demoteEntry rb)).take HISTORY_LIMIT
          else m.history s
        customOverrides := fun s =>
          if s = service ∧ ¬ rb then none else m.customOverrides s } := by
  unfold update_service_version
  rw [hg]

theorem update_isSome (m : Manifest) (service tag : String) (rb : Bool)
    (now deployer digest : String) (hsvc : service ∈ SERVICES) :
    ∃ m', update_service_version m service tag rb now deployer digest = some m' := by
  have hs := get_image_name_isSome m service tag hsvc
  cases hg : get_image_name m service tag with
  | none => rw [hg] at hs; simp at hs
  | some img => exact ⟨_, update_eq_some hg⟩

theorem update_history_self {m m' : Manifest} {service tag : String} {rb : Bool}
    {now deployer digest : String}
    (h : update_service_version m service tag rb now deployer digest = some m') :
    m'.history service =
      (⟨tag, now, "current"⟩ ::
        (m.history service).map (demoteEntry rb)).take HISTORY_LIMIT := by
  cases hg : get_image_name m service tag with
  | none => simp [update_service_version, hg] at h
  | some img =>
    rw [update_eq_some hg] at h
    injection h with h
    subst h
    simp

theorem update_overrides {m m' : Manifest} {service tag : String} {rb : Bool}
    {now deployer digest : String}
    (h : update_service_version m service tag rb now deployer digest = some m') :
    m'.customOverrides =
      fun s => if s = service ∧ ¬ rb then none else m.customOverrides s := by
  cases hg : get_image_name m service tag with
  | none => simp [update_service_version, hg] at h
  | some img =>
    rw [update_eq_some hg] at h
    injection h with h
    subst h
    rfl

theorem update_history_tags {m m' : Manifest} {service tag : String} {rb : Bool}
    {now deployer digest : String}
    (h : update_service_version m service tag rb now deployer digest = some m') :
    (m'.history service).map HistoryEntry.tag =
      (tag :: (m.history service).map HistoryEntry.tag).take HISTORY_LIMIT := by
  rw [update_history_self h, List.map_take]
  congr 1
  simp only [List.map_cons, List.map_map]
  congr 1
  simp [Function.comp_def, demoteEntry_tag]

theorem take_append_take {α : Type} (A B : List α) :
    ∀ m n : Nat, m ≤ n → (A ++ B.take n).take m = (A ++ B).take m := by
  induction A with
  | nil =>
    intro m n h
    simp only [List.nil_append, List.take_take]
    rw [Nat.min_eq_left h]
  | cons a A ih =>
    intro m n h
    cases m with
    | zero => simp
    | succ k =>
      cases n with
      | zero => omega
      | succ j =>
        simp only [List.cons_append, List.take_succ_cons]
        rw [ih k (j + 1) (by omega)]

theorem applyOps_tags (service : String) (hsvc : service ∈ SERVICES) :
    ∀ (ops : List RecOp) (m : Manifest), ops ≠ [] →
      ∃ m', applyOps m service ops = some m' ∧
        (m'.history service).map HistoryEntry.tag =
          (ops.reverse.map RecOp.tag ++
            (m.history service).map HistoryEntry.tag).take HISTORY_LIMIT := by
  intro ops
  induction ops with
  | nil => intro m h; exact absurd rfl h
  | cons op rest ih =>
    intro m _
    obtain ⟨m1, hm1⟩ :=
      update_isSome m service op.tag op.isRollback op.now op.deployer op.digest hsvc
    have htags1 := update_history_tags hm1
    by_cases hr : rest = []
    · subst hr
      refine ⟨m1, by simp [applyOps, hm1], ?_⟩
      rw [htags1]
      simp
    · obtain ⟨m', hap, htags⟩ := ih m1 hr
      refine ⟨m', by simp [applyOps, hm1, hap], ?_⟩
      rw [htags, htags1]
      rw [take_append_take _ _ HISTORY_LIMIT HISTORY_LIMIT (le_refl _)]
      congr 1
      simp [List.reverse_cons, List.append_assoc]

/-! ## Claim C1 -/

/-- Claim C1: after every successful recording operation (all of `pull`,
`rollback` and `set` record through `update_service_version`), on any service
and from any starting manifest, exactly one entry of `history[service]` has
status `current`, namely the newly inserted most-recent (head) entry; the
recorded history is the new `current` entry consed onto the demotion
(`current → previous`/`rolled-back`, `previous → archived`) of the previous
entries, truncated to `HISTORY_LIMIT`. -/
theorem claim_C1_single_current (m m' : Manifest) (service tag : String) (rb : Bool)
    (now deployer digest : String)
    (h : update_service_version m service tag rb now deployer digest = some m') :
    (m'.history service).countP (fun e => e.status == "current") = 1 ∧
    (m'.history service).head? = some ⟨tag, now, "current"⟩ ∧
    m'.history service =
      (⟨tag, now, "current"⟩ ::
        (m.history service).map (demoteEntry rb)).take HISTORY_LIMIT := by
  refine ⟨?_, ?_, update_history_self h⟩
  · rw [update_history_self h]
    have hz : ((m.history service).map (demoteEntry rb)).countP
        (fun e => e.status == "current") = 0 := by
      rw [List.countP_eq_zero]
      intro a ha
      obtain ⟨b, _, rfl⟩ := List.mem_map.mp ha
      simp [demoteEntry_status_ne]
    have hz4 : (((m.history service).map (demoteEntry rb)).take 4).countP
        (fun e => e.status == "current") = 0 := by
      have hle := (List.take_sublist 4
        ((m.history service).map (demoteEntry rb))).countP_le
        (fun e => e.status == "current")
      omega
    rw [show HISTORY_LIMIT = 4 + 1 from rfl, List.take_succ_cons, List.countP_cons]
    simp [hz4]
  · rw [update_history_self h]
    rw [show HISTORY_LIMIT = 4 + 1 from rfl, List.take_succ_cons]
    rfl

/-- Witness for C1: recording `outpost:1.42` on the default (empty) manifest. -/
theorem claim_C1_single_current_witness :
    ∃ m', update_service_version (create_default_manifest "20260101")
        "outpost" "1.42" false "t1" "admin" "sha256:aa" = some m' ∧
      (m'.history "outpost").countP (fun e => e.status == "current") = 1 ∧
      (m'.history "outpost").head? = some ⟨"1.42", "t1", "current"⟩ := by
  obtain ⟨m', hm'⟩ := update_isSome (create_default_manifest "20260101")
    "outpost" "1.42" false "t1" "admin" "sha256:aa" (by decide)
  obtain ⟨h1, h2, _⟩ := claim_C1_single_current _ m' "outpost" "1.42" false
    "t1" "admin" "sha256:aa" hm'
  exact ⟨m', hm', h1, h2⟩

/-! ## Claim C5 -/

/-- Claim C5: recording a normal (non-rollback) update for a service deletes
its `custom_overrides` entry and touches no other service's override;
recording a rollback update leaves the whole override table unchanged. -/
theorem claim_C5_override_clearing (m : Manifest) (service tag : String)
    (now deployer digest : String) (hsvc : service ∈ SERVICES) :
    (∃ m', update_service_version m service tag false now deployer digest = some m' ∧
       m'.customOverrides service = none ∧
       ∀ s, s ≠ service → m'.customOverrides s = m.customOverrides s) ∧
    (∃ m', update_service_version m service tag true now deployer digest = some m' ∧
       ∀ s, m'.customOverrides s = m.customOverrides s) := by
  constructor
  · obtain ⟨m', hm'⟩ := update_isSome m service tag false now deployer digest hsvc
    refine ⟨m', hm', ?_, ?_⟩
    · rw [update_overrides hm']
      simp
    · intro s hs
      rw [update_overrides hm']
      simp [hs]
  · obtain ⟨m', hm'⟩ := update_isSome m service tag true now deployer digest hsvc
    refine ⟨m', hm', fun s => ?_⟩
    rw [update_overrides hm']
    simp


/-- Witness for C5 at a concrete manifest: the normal update clears the
`outpost` override and keeps the `vault` one; the rollback keeps both. -/
theorem claim_C5_override_clearing_witness :
    (∃ m', update_service_version mW5 "outpost" "1.2" false "t1" "admin" "d" = some m' ∧
       m'.customOverrides "outpost" = none ∧
       m'.customOverrides "vault" = mW5.customOverrides "vault") ∧
    (∃ m', update_service_version mW5 "outpost" "1.2" true "t1" "admin" "d" = some m' ∧
       m'.customOverrides "outpost" = mW5.customOverrides "outpost") := by
  obtain ⟨h1, h2⟩ := claim_C5_override_clearing mW5 "outpost" "1.2" "t1" "admin" "d"
    (by decide)
  constructor
  · obtain ⟨m', hm', hnone, hother⟩ := h1
    exact ⟨m', hm', hnone, hother "vault" (by decide)⟩
  · obtain ⟨m', hm', hall⟩ := h2
    exact ⟨m', hm', hall "outpost"⟩

/-! ## Claim C2 -/

/-- Claim C2: along any sequence of successful recordings for a known
service, `history[service]` never exceeds `HISTORY_LIMIT = 5` entries, and
after at least 5 recordings it has exactly 5 entries whose tags are the 5
most recently recorded tags in most-recent-first order. -/
theorem claim_C2_history_bound (m : Manifest) (service : String) (ops : List RecOp)
    (hsvc : service ∈ SERVICES) :
    (∀ k, 1 ≤ k → k ≤ ops.length →
      ∃ mk, applyOps m service (ops.take k) = some mk ∧
        (mk.history service).length ≤ HISTORY_LIMIT) ∧
    (HISTORY_LIMIT ≤ ops.length →
      ∃ m', applyOps m service ops = some m' ∧
        (m'.history service).length = HISTORY_LIMIT ∧
        (m'.history service).map HistoryEntry.tag =
          (ops.reverse.map RecOp.tag).take HISTORY_LIMIT) := by
  constructor
  · intro k hk1 hk2
    have hne : ops.take k ≠ [] := by
      intro hcon
      have := congrArg List.length hcon
      rw [List.length_take, List.length_nil] at this
      omega
    obtain ⟨mk, hap, htags⟩ := applyOps_tags service hsvc (ops.take k) m hne
    refine ⟨mk, hap, ?_⟩
    have h2 := congrArg List.length htags
    rw [List.length_map, List.length_take] at h2
    rw [show HISTORY_LIMIT = 5 from rfl] at h2 ⊢
    omega
  · intro hN
    have hne : ops ≠ [] := by
      intro h
      subst h
      rw [show HISTORY_LIMIT = 5 from rfl] at hN
      simp at hN
    obtain ⟨m', hap, htags⟩ := applyOps_tags service hsvc ops m hne
    refine ⟨m', hap, ?_, ?_⟩
    · have h2 := congrArg List.length htags
      rw [List.length_map, List.length_take, List.length_append, List.length_map,
        List.length_reverse] at h2
      rw [show HISTORY_LIMIT = 5 from rfl] at h2 hN ⊢
      omega
    · rw [htags, List.take_append_of_le_length
        (by rw [List.length_map, List.length_reverse]; exact hN)]


/-- Witness for C2: six recordings on `outpost` from the default manifest
leave exactly 5 entries, the most recent first. -/
theorem claim_C2_history_bound_witness :
    ∃ m', applyOps (create_default_manifest "20260101") "outpost" opsW2 = some m' ∧
      (m'.history "outpost").length = HISTORY_LIMIT ∧
      (m'.history "outpost").map HistoryEntry.tag =
        (opsW2.reverse.map RecOp.tag).take HISTORY_LIMIT :=
  (claim_C2_history_bound (create_default_manifest "20260101") "outpost" opsW2
    (by decide)).2 (by decide)

/-! ## Claim C3 -/

/-- Counterexample to C3 as stated: on `mW3e` the history entry with status
`previous` has tag `""`, which differs from the current tag `"x"`, yet
`rollback` (with a succeeding pull) records nothing and leaves the manifest
unchanged — the plan check `if target and target != current` treats the
empty-string target as falsy and skips the service, a third skip condition
the claim does not list. -/
theorem claim_C3_counterexample :
    get_previous_tag mW3e "outpost" = some "" ∧
    get_current_tag mW3e "outpost" = "x" ∧
    ("" : String) ≠ "x" ∧
    rollback_service mW3e "outpost" none true "t2" "admin" "d2" = some mW3e ∧
    (mW3e.history "outpost").head? ≠ some ⟨"", "t2", "current"⟩ := by
  refine ⟨by decide, by decide, by decide, rfl, by decide⟩

/-- Claim C3 (amended): `rollback` on a service with no explicit tag targets
the tag of the history entry with status `previous` (else the second history
entry); it skips the service when no such tag exists, when the target is the
empty string (Python truthiness in `if target and target != current`), or
when the target equals the current tag; and on pull success it records the
target tag as the new `current` head entry while demoting the
formerly-current entry to `rolled-back` (`demoteEntry true`), preserving the
override table. -/
theorem claim_C3_rollback (m : Manifest) (service : String)
    (now deployer digest : String) (hsvc : service ∈ SERVICES) :
    (∀ pok, get_previous_tag m service = none →
        rollback_service m service none pok now deployer digest = some m) ∧
    (∀ pok, get_previous_tag m service = some "" →
        rollback_service m service none pok now deployer digest = some m) ∧
    (∀ t pok, get_previous_tag m service = some t → t = get_current_tag m service →
        rollback_service m service none pok now deployer digest = some m) ∧
    (∀ t, get_previous_tag m service = some t → t ≠ "" →
        t ≠ get_current_tag m service →
        ∃ m', rollback_service m service none true now deployer digest = some m' ∧
          (m'.history service).head? = some ⟨t, now, "current"⟩ ∧
          m'.history service =
            (⟨t, now, "current"⟩ ::
              (m.history service).map (demoteEntry true)).take HISTORY_LIMIT ∧
          ∀ s, m'.customOverrides s = m.customOverrides s) ∧
    (∀ e, (m.history service).find? (fun x => x.status == "previous") = some e →
        get_previous_tag m service = some e.tag) ∧
    ((m.history service).find? (fun x => x.status == "previous") = none →
        get_previous_tag m service = ((m.history service)[1]?).map HistoryEntry.tag) := by
  refine ⟨?_, ?_, ?_, ?_, ?_, ?_⟩
  · intro pok h
    simp [rollback_service, h]
  · intro pok h
    simp [rollback_service, h]
  · intro t pok h he
    have hc : (t != get_current_tag m service) = false := by
      simp [he]
    simp [rollback_service, h, hc]
  · intro t h hne hnc
    obtain ⟨m', hm'⟩ := update_isSome m service t true now deployer digest hsvc
    have hgs := get_image_name_isSome m service t hsvc
    obtain ⟨img, hg⟩ := Option.isSome_iff_exists.mp hgs
    have hc1 : (t != "") = true := by simp [hne]
    have hc2 : (t != get_current_tag m service) = true := by simp [hnc]
    refine ⟨m', ?_, ?_, update_history_self hm', ?_⟩
    · simp [rollback_service, h, hc1, hc2, hg, hm']
    · rw [update_history_self hm']
      rw [show HISTORY_LIMIT = 4 + 1 from rfl, List.take_succ_cons]
      rfl
    · intro s
      rw [update_overrides hm']
      simp
  · intro e h
    simp [get_previous_tag, h]
  · intro h
    unfold get_previous_tag
    rw [h]
    dsimp only
    by_cases hlen : 1 < (m.history service).length
    · rw [if_pos hlen]
    · have hnone : (m.history service)[1]? = none :=
        List.getElem?_eq_none (by omega)
      rw [if_neg hlen, hnone]
      rfl

/-- Witness for C3 on the P5 scenario: rollback of `outpost` records `1.2`
as the new current entry and demotes `1.3` to `rolled-back` (the old
`previous` entry is archived). -/
theorem claim_C3_rollback_witness :
    ∃ m', rollback_service mW3 "outpost" none true "t2" "admin" "d2" = some m' ∧
      (m'.history "outpost").head? = some ⟨"1.2", "t2", "current"⟩ ∧
      m'.history "outpost" =
        [⟨"1.2", "t2", "current"⟩, ⟨"1.3", "t1", "rolled-back"⟩,
         ⟨"1.2", "t0", "archived"⟩] ∧
      m'.customOverrides "outpost" = mW3.customOverrides "outpost" := by
  obtain ⟨m', h1, h2, h3, h4⟩ :=
    (claim_C3_rollback mW3 "outpost" "t2" "admin" "d2" (by decide)).2.2.2.1
      "1.2" (by decide) (by decide) (by decide)
  refine ⟨m', h1, h2, ?_, h4 "outpost"⟩
  rw [h3]
  decide

/-! ## Claim C4 -/



/-- Counterexample to C4 as stated: `customOverrides["outpost"]` is present
(with tag `""`), yet `get_current_tag` returns `services["outpost"].currentTag`
(`"1.2"`), not the override's tag — Python only honours a *truthy* override
tag (`if override.get('tag'):`). -/
theorem claim_C4_counterexample :
    mW4.customOverrides "outpost" = some ⟨"", "emptied hotfix", "t0"⟩ ∧
    get_current_tag mW4 "outpost" = "1.2" ∧
    ("1.2" : String) ≠ "" := by
  decide

/-- Claim C4 (amended): the effective tag equals the override's tag whenever
`customOverrides[service]` is present *with a non-empty tag*, regardless of
`services[service].currentTag`; otherwise (no override, or an override whose
tag is the empty string) it equals `services[service].currentTag`
(defaulting to `latest` for an untracked service). -/
theorem claim_C4_override_precedence (m : Manifest) (service : String) :
    (∀ o, m.customOverrides service = some o → o.tag ≠ "" →
        get_current_tag m service = o.tag) ∧
    (∀ o, m.customOverrides service = some o → o.tag = "" →
        get_current_tag m service = recordedTag m service) ∧
    (m.customOverrides service = none →
        get_current_tag m service = recordedTag m service) := by
  refine ⟨?_, ?_, ?_⟩
  · intro o ho hne
    simp [get_current_tag, ho, hne]
  · intro o ho he
    simp [get_current_tag, recordedTag, ho, he]
  · intro h
    simp [get_current_tag, recordedTag, h]


/-- Witness for the amended C4: a non-empty override wins over the recorded
tag; a service without an override falls back to the recorded tag. -/
theorem claim_C4_override_precedence_witness :
    get_current_tag mW4b "outpost" = "9.9-hotfix" ∧
    get_current_tag mW4b "vault" = recordedTag mW4b "vault" :=
  ⟨(claim_C4_override_precedence mW4b "outpost").1 ⟨"9.9-hotfix", "hotfix", "t0"⟩
      (by decide) (by decide),
   (claim_C4_override_precedence mW4b "vault").2.2 (by decide)⟩

/-! ## Claim C6 -/

/-- Claim C6: when the image pull fails, `pull` and `set_version` leave the
manifest completely unchanged, save nothing to disk (`saved = false`) and
report the error (`ok = false`); the manifest is mutated and saved only on a
successful pull. -/
theorem claim_C6_pull_failure_no_mutation (m : Manifest)
    (service tag now deployer digest : String) :
    pull m service tag false now deployer digest =
      { manifest := m, saved := false, ok := false } ∧
    set_version m service tag false now deployer digest =
      { manifest := m, saved := false, ok := false } := by
  constructor
  · by_cases h : service ∈ SERVICES <;> simp [pull, h]
  · by_cases h : service ∈ SERVICES <;> simp [set_version, h]

/-! ## Claim C7 -/

/-- Counterexample to C7 as stated: a present but unparsable (malformed YAML)
manifest file makes `load_manifest` raise (`yaml.safe_load` is not guarded by
any `try`), rather than returning the default manifest. -/
theorem claim_C7_counterexample :
    load_manifest ManifestFile.invalidYaml "20260101" =
      (Except.error (), ManifestFile.invalidYaml) := rfl

/-- Claim C7 (amended): `load_manifest` returns a freshly constructed default
manifest when the file is absent or parses to an empty/null document, and it
never writes the file (the on-disk state is returned unchanged); a present
but syntactically invalid file instead raises to the caller. -/
theorem claim_C7_load_default (today : String) :
    load_manifest ManifestFile.absent today =
      (Except.ok (create_default_manifest today), ManifestFile.absent) ∧
    load_manifest ManifestFile.emptyDoc today =
      (Except.ok (create_default_manifest today), ManifestFile.emptyDoc) :=
  ⟨rfl, rfl⟩

/-! ## Claim C8 -/

theorem retryFrom_pulls_le (attempts : Nat → Bool × String) (ecr : Bool) :
    ∀ remaining pulls clears : Nat,
      (retryFrom attempts ecr remaining pulls clears).pulls ≤ pulls + remaining := by
  intro remaining
  induction remaining with
  | zero => intro pulls clears; simp [retryFrom]
  | succ r ih =>
    intro pulls clears
    simp only [retryFrom]
    rcases hA : attempts pulls with ⟨ok, out⟩
    cases ok
    · dsimp only
      split
      · exact le_trans (ih (pulls + 1) (clears + 1)) (by omega)
      · simp
    · simp

/-- Claim C8: `docker_pull_with_retry` with the default `max_retries = 2`
invokes the pull at most twice; it retries (after exactly one credential
clear) only when a non-final attempt fails with an expired-authorization
marker in its output and the image is on `public.ecr.aws`; any failure with
other output, or a failure of the final attempt, is returned immediately with
that attempt's output and no further credential clear. -/
theorem claim_C8_pull_retry (attempts : Nat → Bool × String) (image out0 out1 : String) :
    (docker_pull_with_retry attempts image 2).pulls ≤ 2 ∧
    (attempts 0 = (false, out0) → expiredTokenMarker out0 = true →
      containsSub image "public.ecr.aws" = true → attempts 1 = (true, out1) →
      docker_pull_with_retry attempts image 2 =
        { ok := true, output := out1, pulls := 2, clears := 1 }) ∧
    (attempts 0 = (false, out0) → expiredTokenMarker out0 = false →
      docker_pull_with_retry attempts image 2 =
        { ok := false, output := out0, pulls := 1, clears := 0 }) ∧
    (attempts 0 = (false, out0) → expiredTokenMarker out0 = true →
      containsSub image "public.ecr.aws" = false →
      docker_pull_with_retry attempts image 2 =
        { ok := false, output := out0, pulls := 1, clears := 0 }) ∧
    (attempts 0 = (false, out0) → expiredTokenMarker out0 = true →
      containsSub image "public.ecr.aws" = true → attempts 1 = (false, out1) →
      docker_pull_with_retry attempts image 2 =
        { ok := false, output := out1, pulls := 2, clears := 1 }) := by
  refine ⟨?_, ?_, ?_, ?_, ?_⟩
  · exact le_trans (retryFrom_pulls_le attempts _ 2 0 0) (by omega)
  · intro h0 hm hecr h1
    unfold docker_pull_with_retry
    rw [hecr]
    show retryFrom attempts true (1 + 1) 0 0 = _
    simp only [retryFrom, h0, h1, hm]
    rfl
  · intro h0 hm
    unfold docker_pull_with_retry
    show retryFrom attempts _ (1 + 1) 0 0 = _
    simp only [retryFrom, h0, hm]
    rfl
  · intro h0 hm hecr
    unfold docker_pull_with_retry
    rw [hecr]
    show retryFrom attempts false (1 + 1) 0 0 = _
    simp only [retryFrom, h0, hm]
    rfl
  · intro h0 hm hecr h1
    unfold docker_pull_with_retry
    rw [hecr]
    show retryFrom attempts true (1 + 1) 0 0 = _
    simp only [retryFrom, h0, h1, hm]
    simp


/-- Witness for C8: the expired-token failure on a public ECR image is
retried once and succeeds, with exactly one credential clear and two pulls. -/
theorem claim_C8_pull_retry_witness :
    docker_pull_with_retry attemptsW8 "public.ecr.aws/n5k3t9x2/outpost:1.42" 2 =
      { ok := true, output := "pull complete", pulls := 2, clears := 1 } :=
  (claim_C8_pull_retry attemptsW8 "public.ecr.aws/n5k3t9x2/outpost:1.42"
      "Error: authorization token has expired" "pull complete").2.1
    rfl (by decide) (by decide) rfl

/-! ## Claim C9 -/

/-- Claim C9 records the intended behaviour (the sort is best-effort and
never fatal); the code contradicts it. On the tag list `["1.2", "1.a"]` the
sort compares the keys `[1, 2]` and `[1, "a"]`: the first segments are equal,
and comparing the `int` `2` with the `str` `"a"` raises `TypeError` in
Python 3 — which `except (ValueError, AttributeError)` does NOT catch, so the
selection step aborts the calling operation. Both tags do pass the
`semantic_tags` filter, so the failing comparison is reached. -/
theorem claim_C9_sort_type_error :
    semanticTags ["1.2", "1.a"] = ["1.2", "1.a"] ∧
    cmpKey (tagKey "1.2") (tagKey "1.a") = none ∧
    selectHighestTag ["1.2", "1.a"] = .error () := by
  refine ⟨by decide, by decide, rfl⟩

/-! ## Claim C10 -/

/-- Claim C10: the selection step excludes `latest` and digest-like
(`sha`-prefixed) tags; among the remaining tags the descending segment-wise
sort (numeric segments as integers, so `2.0 > 1.10 > 1.9`) puts the highest
first, and the resolver returns it: on
`["1.9", "1.10", "2.0", "latest", "sha256abc"]` it returns `"2.0"`. -/
theorem claim_C10_tag_selection :
    semanticTags ["1.9", "1.10", "2.0", "latest", "sha256abc"] =
      ["1.9", "1.10", "2.0"] ∧
    sortTagsDesc ["1.9", "1.10", "2.0"] = some ["2.0", "1.10", "1.9"] ∧
    selectHighestTag ["1.9", "1.10", "2.0", "latest", "sha256abc"] =
      .ok (some "2.0") := by
  refine ⟨by decide, by decide, rfl⟩
